import Mathlib

/-
Verification of the patch-parameter optimization and dense-flow
reconstruction engine of `src/solver/patch_eklt_dependent.py`
(`PatchEkltDependent`).  The Python code is shallowly embedded:

* patch activation selection (`estimate`, lines 63-80) over exact
  rational coordinates;
* the optimization loop (`estimate`, lines 98-118) as a fold over an
  explicit state.  Python variables `x0` and `best_x` are tensor
  *references* into a heap, and `optimizer.step()` mutates the tensor
  they point to in place; the embedding keeps the heap explicit so this
  reference semantics is preserved;
* the parameter-vector codec (`_get_patch_flow`,
  `_get_patch_translation`, `_get_patch_poisson`, `poisson_to_flow`)
  over an arbitrary linear ordered field, with `assert` statements
  rendered as `Option` (a failed assertion returns `none`);
* the forward prediction model (`_make_prediction_torch`), with the
  external collaborators (interpolation primitive, forward-warp
  primitive, norm) passed in as function parameters.
-/

/-! ## Patch activation selector (estimate, lines 63-80) -/

/-- Patch record: center `(x, y)` and bounding box, as used by the
selection loop in `estimate`.  The patch grid itself is built by the
external base class. -/
structure Patch where
  x : ℚ
  y : ℚ
  x_min : ℚ
  x_max : ℚ
  y_min : ℚ
  y_max : ℚ
deriving DecidableEq

/-- ROI bounds `crop_xmin, crop_xmax, crop_ymin, crop_ymax` used by the
selection loop. -/
structure Roi where
  xmin : ℚ
  xmax : ℚ
  ymin : ℚ
  ymax : ℚ
deriving DecidableEq

/-- An event, reduced to its spatial coordinates. -/
structure Event where
  x : ℚ
  y : ℚ
deriving DecidableEq

/-- Modelled from the spec: `utils.crop_event` is not among the analysed
sources.  Spec section 6 gives the contract
`crop_event(events, x_min, x_max, y_min, y_max) -> events subset` and
section 4.1 says "crop the event stream to the patch's bounding box";
events inside the closed bounding box are kept. -/
def crop_event (events : List Event) (x_min x_max y_min y_max : ℚ) : List Event :=
  events.filter (fun e =>
    decide (x_min ≤ e.x) && decide (e.x ≤ x_max) &&
    decide (y_min ≤ e.y) && decide (e.y ≤ y_max))

/-- ROI test of `estimate` lines 65-68: the patch is *skipped* when
`p.x < crop_xmin or crop_xmax < p.x` (and similarly for `y`); `in_roi`
is the negation of the two skip conditions. -/
def in_roi (p : Patch) (roi : Roi) : Bool :=
  !(decide (p.x < roi.xmin) || decide (roi.xmax < p.x)) &&
  !(decide (p.y < roi.ymin) || decide (roi.ymax < p.y))

/-- The selection loop of `estimate` lines 63-80: for each `i` in grid
order, keep `i` iff the center is inside the ROI and
(`not self.do_event_thresholding or len(cropped) > self.event_thres`). -/
def select_estimate_indices (patches : List Patch) (events : List Event) (roi : Roi)
    (do_event_thresholding : Bool) (event_thres : ℚ) : List ℕ :=
  (List.range patches.length).filter (fun i =>
    let p := patches.getD i ⟨0, 0, 0, 0, 0, 0⟩
    in_roi p roi &&
      (!do_event_thresholding ||
        decide (event_thres < ((crop_event events p.x_min p.x_max p.y_min p.y_max).length : ℚ))))

/-! ## Optimization loop (estimate, lines 98-118) -/

/-- Loss values as produced by `loss.item()` / compared by `<`:
a float that is NaN, finite, or `math.inf`.  `NaN < v` and `v < NaN`
are both false, matching IEEE comparison semantics. -/
inductive Fl where
  | nan : Fl
  | fin : ℚ → Fl
  | inf : Fl
deriving DecidableEq

/-- Strict `<` on losses as Python evaluates `loss < min_loss`. -/
def Fl.ltb : Fl → Fl → Bool
  | Fl.fin a, Fl.fin b => decide (a < b)
  | Fl.fin _, Fl.inf => true
  | _, _ => false

/-- State of the loop in `estimate` lines 98-116.  `heap` is the tensor
store; `x0_ref` and `best_ref` are the tensor references held by the
Python variables `x0` and `best_x`.  `broke` records that the
`except ... break` path was taken. -/
structure OptState (V : Type) where
  heap : ℕ → V
  x0_ref : ℕ
  best_ref : ℕ
  min_loss : Fl
  best_it : ℕ
  broke : Bool

/-- Line 98: `best_x, best_it, min_loss = x0, 0, math.inf`.  A single
tensor (reference 0) is allocated for `x0`; `best_x` is bound to the
same reference. -/
def init_state {V : Type} (x0 : V) : OptState V :=
  { heap := fun _ => x0, x0_ref := 0, best_ref := 0,
    min_loss := Fl.inf, best_it := 0, broke := false }

/-- One iteration of the loop body (lines 99-115).  `lossF` is the cost
of the current parameter tensor, `failsF it x` says whether
`loss.backward()` raises at iteration `it`, and `stepF it x` is the
in-place update `optimizer.step()` (plus `scheduler.step()`) applies to
the tensor `x0` points to.  After a `break` (`broke = true`) the
remaining iterations do nothing. -/
def loop_body {V : Type} (lossF : V → Fl) (failsF : ℕ → V → Bool) (stepF : ℕ → V → V)
    (s : OptState V) (it : ℕ) : OptState V :=
  if s.broke then s
  else
    let x := s.heap s.x0_ref
    let loss := lossF x
    let s1 := if Fl.ltb loss s.min_loss then
        { s with best_ref := s.x0_ref, min_loss := loss, best_it := it }
      else s
    if failsF it x then { s1 with broke := true }
    else { s1 with heap := fun r => if r = s1.x0_ref then stepF it x else s1.heap r }

/-- The loop `for it in range(iters)` of lines 99-115. -/
def run_loop {V : Type} (lossF : V → Fl) (failsF : ℕ → V → Bool) (stepF : ℕ → V → V)
    (x0 : V) (n_iter : ℕ) : OptState V :=
  (List.range n_iter).foldl (loop_body lossF failsF stepF) (init_state x0)

/-- Line 117-118: `best_x = best_x.clone().detach()` followed by the
dense reconstruction from `best_x`; the value handed to the
reconstruction is the current contents of the tensor `best_x` refers
to. -/
def estimate_best {V : Type} (lossF : V → Fl) (failsF : ℕ → V → Bool) (stepF : ℕ → V → V)
    (x0 : V) (n_iter : ℕ) : V :=
  let s := run_loop lossF failsF stepF x0 n_iter
  s.heap s.best_ref

/-- Modelled from the spec: state of the optimization loop as the spec
describes it (section 4.5), with the best iterate recorded *by value*
("an explicit `best` record (parameters + loss + iteration)"). -/
structure SpecState (V : Type) where
  x : V
  best_x : V
  min_loss : Fl
  best_it : ℕ
  broke : Bool

/-- Modelled from the spec: one iteration of the loop of section 4.5 —
"record this iterate as best-so-far if loss strictly improves on the
minimum seen; attempt backward differentiation — on any failure ...
terminating the loop early with whatever best iterate has been recorded
so far". -/
def spec_body {V : Type} (lossF : V → Fl) (failsF : ℕ → V → Bool) (stepF : ℕ → V → V)
    (s : SpecState V) (it : ℕ) : SpecState V :=
  if s.broke then s
  else
    let loss := lossF s.x
    let s1 := if Fl.ltb loss s.min_loss then
        { s with best_x := s.x, min_loss := loss, best_it := it }
      else s
    if failsF it s.x then { s1 with broke := true }
    else { s1 with x := stepF it s.x }

/-- Modelled from the spec: "In both cases the returned parameters are
the recorded best-loss iterate" (section 4.5, Termination). -/
def spec_best {V : Type} (lossF : V → Fl) (failsF : ℕ → V → Bool) (stepF : ℕ → V → V)
    (x0 : V) (n_iter : ℕ) : V :=
  ((List.range n_iter).foldl (spec_body lossF failsF stepF)
    ⟨x0, x0, Fl.inf, 0, false⟩).best_x

/-! ## Parameter vector codec (decode paths, lines 188-257 and 259-281) -/

/-- Static configuration and per-call bookkeeping of the decode paths:
model flags, `n_parameter_dim`, patch grid geometry (`patch_image_size
= (patch_image_h, patch_image_w)` with `n_patch` entries), and the
Active Patch Set `estimate_indices` built by the selector. -/
structure Cfg where
  is_poisson_model : Bool
  is_angle_model : Bool
  optimize_warp : Bool
  no_polarity : Bool
  n_parameter_dim : ℕ
  n_patch : ℕ
  patch_image_h : ℕ
  patch_image_w : ℕ
  estimate_indices : List ℕ

section Codec

variable {α : Type} [LinearOrderedField α]

/-- Line 198 (and 226, 251): `parameters.reshape(-1, n_parameter_dim).T`
for a flat row-major parameter vector; entry `(r, k)` of the transposed
matrix is `parameters[k * n_parameter_dim + r]`. -/
def reshaped_params (n_dim : ℕ) (params : List α) (r k : ℕ) : α :=
  params.getD (k * n_dim + r) 0

/-- The scatter idiom of lines 201-202, 212-214, 237-239, 255-256:
allocate `torch.zeros(n_patch)` and write the decoded per-active-patch
values at positions `estimate_indices` (the indices are pairwise
distinct by construction, so `+=` on zeros and `=` agree). -/
def scatterTo (active : List ℕ) (v : ℕ → α) : ℕ → α :=
  fun i => if i ∈ active then v (active.indexOf i) else 0

/-- The all-zero patch-level field, used as `Option.getD` default when a
decode path fails its assertion. -/
def zpatch : ℕ → ℕ → α := fun _ _ => 0

/-- Row-major `reshape` of a flat length-`n_patch` array onto the
`patch_image_h x patch_image_w` patch grid, with zero padding outside
the grid (used by the convolution below). -/
def grid_of (cfg : Cfg) (arr : ℕ → α) : ℤ → ℤ → α :=
  fun i j =>
    if 0 ≤ i ∧ i < (cfg.patch_image_h : ℤ) ∧ 0 ≤ j ∧ j < (cfg.patch_image_w : ℤ) then
      arr (i.toNat * cfg.patch_image_w + j.toNat)
    else 0

/-- Modelled from the spec: `utils.SobelTorch` is not among the analysed
sources.  Spec section 4.3a describes it as a "normalized discrete
gradient (Sobel-style ...) producing 2 channels (x,y) gradient
components"; this is the standard 3x3 Sobel cross-correlation in the
second grid coordinate, with zero padding. -/
def sobel_gx (g : ℤ → ℤ → α) (i j : ℤ) : α :=
  (g (i - 1) (j + 1) + 2 * g i (j + 1) + g (i + 1) (j + 1)) -
  (g (i - 1) (j - 1) + 2 * g i (j - 1) + g (i + 1) (j - 1))

/-- Modelled from the spec: the companion 3x3 Sobel cross-correlation in
the first grid coordinate (see `sobel_gx`). -/
def sobel_gy (g : ℤ → ℤ → α) (i j : ℤ) : α :=
  (g (i + 1) (j - 1) + 2 * g (i + 1) j + g (i + 1) (j + 1)) -
  (g (i - 1) (j - 1) + 2 * g (i - 1) j + g (i - 1) (j + 1))

/-- `poisson_to_flow` (lines 259-281): the intensity array is reshaped
onto the patch grid, the Sobel operator is applied and the result is
divided by 8.  Channel `c`, flat patch index `p`. -/
def poisson_to_flow (cfg : Cfg) (arr : ℕ → α) : ℕ → ℕ → α :=
  fun c p =>
    let i : ℤ := (p / cfg.patch_image_w : ℕ)
    let j : ℤ := (p % cfg.patch_image_w : ℕ)
    (if c = 0 then sobel_gx (grid_of cfg arr) i j
     else if c = 1 then sobel_gy (grid_of cfg arr) i j
     else 0) / 8

/-- `_get_patch_flow` (lines 188-216).  `sinF`/`cosF` stand for
`torch.sin`/`torch.cos` (instantiated with `Real.sin`/`Real.cos` when
the field is `ℝ`).  The `assert n_parameter_dim in [...]` statements
become `none` on failure.  Result: channel, flat patch index. -/
def get_patch_flow (cfg : Cfg) (sinF cosF : α → α) (params : List α) :
    Option (ℕ → ℕ → α) :=
  let rp := reshaped_params (α := α) cfg.n_parameter_dim params
  if cfg.is_poisson_model then
    if cfg.n_parameter_dim = 1 ∨ cfg.n_parameter_dim = 3 then
      some (poisson_to_flow cfg (scatterTo cfg.estimate_indices (rp 0)))
    else none
  else
    if cfg.is_angle_model then
      if cfg.n_parameter_dim = 1 ∨ cfg.n_parameter_dim = 3 then
        some (fun c i =>
          if c = 0 then scatterTo cfg.estimate_indices (fun k => sinF (rp 0 k)) i
          else if c = 1 then scatterTo cfg.estimate_indices (fun k => cosF (rp 0 k)) i
          else 0)
      else none
    else
      if cfg.n_parameter_dim = 2 ∨ cfg.n_parameter_dim = 4 then
        some (fun c i =>
          if c = 0 then scatterTo cfg.estimate_indices (rp 0) i
          else if c = 1 then scatterTo cfg.estimate_indices (rp 1) i
          else 0)
      else none

/-- `_get_patch_translation` (lines 223-240). -/
def get_patch_translation (cfg : Cfg) (params : List α) : Option (ℕ → ℕ → α) :=
  let rp := reshaped_params (α := α) cfg.n_parameter_dim params
  let scatter2 := fun (vx vy : ℕ → α) =>
    (fun c i =>
      if c = 0 then scatterTo cfg.estimate_indices vx i
      else if c = 1 then scatterTo cfg.estimate_indices vy i
      else 0 : ℕ → ℕ → α)
  if cfg.is_poisson_model then
    if cfg.n_parameter_dim = 3 then some (scatter2 (rp 1) (rp 2)) else none
  else
    if cfg.is_angle_model then
      if cfg.n_parameter_dim = 3 then some (scatter2 (rp 1) (rp 2)) else none
    else
      if cfg.n_parameter_dim = 4 then some (scatter2 (rp 2) (rp 3)) else none

/-- `_get_patch_poisson` (lines 247-257): asserts the poisson model and
`n_parameter_dim in [1, 3]`, then scatters row 0 into a `1 x n_patch`
array. -/
def get_patch_poisson (cfg : Cfg) (params : List α) : Option (ℕ → ℕ → α) :=
  let rp := reshaped_params (α := α) cfg.n_parameter_dim params
  if cfg.is_poisson_model then
    if cfg.n_parameter_dim = 1 ∨ cfg.n_parameter_dim = 3 then
      some (fun c i => if c = 0 then scatterTo cfg.estimate_indices (rp 0) i else 0)
    else none
  else none

/-! ## Dense reconstruction and forward prediction (lines 178-186, 218-221, 283-307) -/

/-- `_extrapolate_dense_flow_from_estimates` (lines 178-186): decode the
patch flow and hand its grid form to the external interpolation
primitive `interp`. -/
def extrapolate_dense_flow_from_estimates (cfg : Cfg) (sinF cosF : α → α)
    (interp : (ℕ → ℤ → ℤ → α) → ℕ → ℤ → ℤ → α) (params : List α) :
    Option (ℕ → ℤ → ℤ → α) :=
  (get_patch_flow cfg sinF cosF params).map
    (fun pf => interp (fun c => grid_of cfg (pf c)))

/-- `_extrapolate_dense_translation_from_estimates` (lines 218-221). -/
def extrapolate_dense_translation_from_estimates (cfg : Cfg)
    (interp : (ℕ → ℤ → ℤ → α) → ℕ → ℤ → ℤ → α) (params : List α) :
    Option (ℕ → ℤ → ℤ → α) :=
  (get_patch_translation cfg params).map
    (fun pt => interp (fun c => grid_of cfg (pt c)))

/-- ROI slicing bounds for the prediction, the tensor-index form of the
`roi` dict of `estimate` line 87. -/
structure RoiIdx where
  xmin : ℕ
  xmax : ℕ
  ymin : ℕ
  ymax : ℕ

/-- The slicing `[x_min:x_max, y_min:y_max]` used throughout
`_make_prediction_torch`: position `(a, b)` of the crop is position
`(xmin + a, ymin + b)` of the full field. -/
def roi_crop (roi : RoiIdx) (g : ℤ → ℤ → α) : ℤ → ℤ → α :=
  fun a b => g ((roi.xmin : ℤ) + a) ((roi.ymin : ℤ) + b)

/-- The all-zero dense field, used as `Option.getD` default. -/
def zfield : ℤ → ℤ → α := fun _ _ => 0

/-- Per-pixel dot product of flow with the brightness gradient
(line 300). -/
def dot_step (fx fy gx gy : ℤ → ℤ → α) : ℤ → ℤ → α :=
  fun a b => fx a b * gx a b + fy a b * gy a b

/-- Absolute value applied exactly when `no_polarity` is set
(lines 301-302). -/
def polarity_step (no_polarity : Bool) (f : ℤ → ℤ → α) : ℤ → ℤ → α :=
  if no_polarity then (fun a b => |f a b|) else f

/-- Elementwise multiplication by weights exactly when weights are
supplied (lines 304-305). -/
def weight_step (weights : Option (ℤ → ℤ → α)) (f : ℤ → ℤ → α) : ℤ → ℤ → α :=
  match weights with
  | some w => fun a b => f a b * w a b
  | none => f

/-- The final normalization of line 306: divide elementwise by the norm
of the unnormalized result plus `0.0001`. -/
def normalize_step (normF : (ℤ → ℤ → α) → α) (f : ℤ → ℤ → α) : ℤ → ℤ → α :=
  fun a b => f a b / (normF f + 1 / 10000)

/-- `_make_prediction_torch` lines 286-305 (everything before the final
normalization): crop the precomputed gradients to the ROI, reconstruct
the dense flow, optionally forward-warp the gradient crops by the
translation field (`warpF` is the external `warp_image_forward`), take
the per-pixel dot product, apply `abs` when `no_polarity`, multiply by
weights when present. -/
def make_prediction_prenorm (cfg : Cfg) (sinF cosF : α → α)
    (interp : (ℕ → ℤ → ℤ → α) → ℕ → ℤ → ℤ → α)
    (warpF : (ℤ → ℤ → α) → (ℕ → ℤ → ℤ → α) → ℤ → ℤ → α)
    (gradient_x gradient_y : ℤ → ℤ → α) (roi : RoiIdx)
    (weights : Option (ℤ → ℤ → α)) (params : List α) : Option (ℤ → ℤ → α) :=
  let gx := roi_crop roi gradient_x
  let gy := roi_crop roi gradient_y
  match extrapolate_dense_flow_from_estimates cfg sinF cosF interp params with
  | none => none
  | some dense_flow =>
    let roi_dense_flow := fun c => roi_crop roi (dense_flow c)
    let warped : Option ((ℤ → ℤ → α) × (ℤ → ℤ → α)) :=
      if cfg.optimize_warp then
        match extrapolate_dense_translation_from_estimates cfg interp params with
        | none => none
        | some translation =>
          let roi_translation := fun c => roi_crop roi (translation c)
          some (warpF gx roi_translation, warpF gy roi_translation)
      else some (gx, gy)
    match warped with
    | none => none
    | some (gx2, gy2) =>
      let p := fun a b => roi_dense_flow 0 a b * gx2 a b + roi_dense_flow 1 a b * gy2 a b
      let p2 := if cfg.no_polarity then (fun a b => |p a b|) else p
      let p3 := match weights with
        | some w => (fun a b => p2 a b * w a b)
        | none => p2
      some p3

/-- `_make_prediction_torch` (lines 283-307): the prenormalization
pipeline followed by line 306,
`predicted_increment /= torch.linalg.norm(predicted_increment.clone()) + 0.0001`.
`normF` stands for `torch.linalg.norm` on the ROI-sized tensor. -/
def make_prediction_torch (cfg : Cfg) (sinF cosF : α → α)
    (interp : (ℕ → ℤ → ℤ → α) → ℕ → ℤ → ℤ → α)
    (warpF : (ℤ → ℤ → α) → (ℕ → ℤ → ℤ → α) → ℤ → ℤ → α)
    (gradient_x gradient_y : ℤ → ℤ → α) (roi : RoiIdx)
    (weights : Option (ℤ → ℤ → α)) (normF : (ℤ → ℤ → α) → α)
    (params : List α) : Option (ℤ → ℤ → α) :=
  (make_prediction_prenorm cfg sinF cosF interp warpF gradient_x gradient_y roi
      weights params).map
    (fun p => fun a b => p a b / (normF p + 1 / 10000))

end Codec

/-! ## Concrete fixtures used by the claim theorems -/

/-- Loss landscape `loss(x) = x` (increasing in the scalar parameter). -/
def lossId : ℚ → Fl := fun x => Fl.fin x

/-- Optimizer update that moves the parameter from its initial point 0
to 1 (and then onward to 2). -/
def stepAdvance : ℕ → ℚ → ℚ := fun _ x => if x = 0 then 1 else 2

/-- Backward differentiation that never raises. -/
def failsNever : ℕ → ℚ → Bool := fun _ _ => false

/-- Loss that is finite (5) at the initial point and NaN elsewhere. -/
def lossNanUnlessZero : ℚ → Fl := fun x => if x = 0 then Fl.fin 5 else Fl.nan

/-- Backward differentiation that raises exactly at iteration 1. -/
def failsAtOne : ℕ → ℚ → Bool := fun it _ => decide (it = 1)

/-- Optimizer update for the gradient-failure scenario: moves the
parameter from its initial point 0 to 1. -/
def stepIncr : ℕ → ℚ → ℚ := fun _ x => if x = 0 then 1 else 2

/-- Loss that is NaN everywhere. -/
def lossAlwaysNan : ℚ → Fl := fun _ => Fl.nan

/-- Backward differentiation that raises already at iteration 0. -/
def failsImmediately : ℕ → ℚ → Bool := fun it _ => decide (it = 0)

/-- Optimizer update for the first-iteration-failure scenario (never
reached, since the failure precedes the first step). -/
def stepShift : ℕ → ℚ → ℚ := fun _ x => if x = 0 then 1 else 2

/-- A patch covering the event block used in the thresholding scenario. -/
def patchA : Patch := ⟨5, 5, 0, 10, 0, 10⟩

/-- ROI containing `patchA`. -/
def roiA : Roi := ⟨0, 10, 0, 10⟩

/-- Exactly nine events inside the bounding box of `patchA`. -/
def eventsNine : List Event := (List.range 9).map (fun k => ⟨1, (k : ℚ)⟩)

/-- Exactly eleven events inside the bounding box of `patchA`. -/
def eventsEleven : List Event := (List.range 11).map (fun k => ⟨1, (k : ℚ)⟩)

/-- Poisson model, `n_parameter_dim = 1`, a `1 x 3` patch grid with only
patch 1 active. -/
def cfgPoisson13 : Cfg := ⟨true, false, false, false, 1, 3, 1, 3, [1]⟩

/-- Plain velocity model, `n_parameter_dim = 2`, a `1 x 2` patch grid
with only patch 0 active. -/
def cfgVelocity2 : Cfg := ⟨false, false, false, false, 2, 2, 1, 2, [0]⟩

/-- Angle model, `n_parameter_dim = 1`, a single active patch. -/
def cfgAngle1 : Cfg := ⟨false, true, false, false, 1, 1, 1, 1, [0]⟩

/-- Plain velocity model with an empty Active Patch Set, for the
normalization witness. -/
def cfgVel5 : Cfg := ⟨false, false, false, false, 2, 1, 1, 1, []⟩

/-! ## Helper lemmas -/

theorem scatterTo_not_mem {α : Type} [LinearOrderedField α] (active : List ℕ)
    (v : ℕ → α) (i : ℕ) (h : i ∉ active) : scatterTo active v i = 0 := by
  simp [scatterTo, h]

theorem scatterTo_mem {α : Type} [LinearOrderedField α] (active : List ℕ)
    (v : ℕ → α) (i : ℕ) (h : i ∈ active) :
    scatterTo active v i = v (active.indexOf i) := by
  simp [scatterTo, h]

theorem loop_body_of_broke {V : Type} (lossF : V → Fl) (failsF : ℕ → V → Bool)
    (stepF : ℕ → V → V) (s : OptState V) (it : ℕ) (h : s.broke = true) :
    loop_body lossF failsF stepF s it = s := by
  simp [loop_body, h]

theorem foldl_loop_body_of_broke {V : Type} (lossF : V → Fl) (failsF : ℕ → V → Bool)
    (stepF : ℕ → V → V) (l : List ℕ) (s : OptState V) (h : s.broke = true) :
    l.foldl (loop_body lossF failsF stepF) s = s := by
  induction l with
  | nil => rfl
  | cons a l ih => rw [List.foldl_cons, loop_body_of_broke lossF failsF stepF s a h]; exact ih

/-! ## Claim theorems -/

/-- C3: a patch index `i` (in grid order) is appended to
`estimate_indices` iff the patch center lies within the ROI bounds and
either event thresholding is disabled or the number of events cropped to
the patch's bounding box strictly exceeds `event_thres`. -/
theorem c3_active_patch_selection (patches : List Patch) (events : List Event)
    (roi : Roi) (dt : Bool) (thres : ℚ) (i : ℕ) (p : Patch)
    (hi : i < patches.length) (hp : patches.getD i ⟨0, 0, 0, 0, 0, 0⟩ = p) :
    i ∈ select_estimate_indices patches events roi dt thres ↔
      ((roi.xmin ≤ p.x ∧ p.x ≤ roi.xmax ∧ roi.ymin ≤ p.y ∧ p.y ≤ roi.ymax) ∧
        (dt = false ∨
          thres < ((crop_event events p.x_min p.x_max p.y_min p.y_max).length : ℚ))) := by
  subst hp
  simp only [select_estimate_indices, List.mem_filter, List.mem_range, hi, true_and]
  cases dt <;>
    simp [in_roi, not_lt, and_assoc]

/-- C3 witness: with `event_thres = 10`, a patch whose bounding box
contains exactly 9 events is excluded from the Active Patch Set, and
with 11 events it is included. -/
theorem c3_threshold_witness :
    0 ∉ select_estimate_indices [patchA] eventsNine roiA true 10 ∧
    0 ∈ select_estimate_indices [patchA] eventsEleven roiA true 10 := by
  constructor
  · intro h
    have h2 := (c3_active_patch_selection [patchA] eventsNine roiA true 10 0 patchA
      (by decide) rfl).mp h
    revert h2
    decide
  · exact (c3_active_patch_selection [patchA] eventsEleven roiA true 10 0 patchA
      (by decide) rfl).mpr (by decide)

/-- C10: the ROI bounds check of the activation selector is inclusive: a
patch whose center coordinate equals a ROI bound (and whose center is
otherwise within bounds) is not skipped, because both comparisons are
strict, and it remains eligible for the Active Patch Set. -/
theorem c10_roi_bounds_inclusive (p : Patch) (roi : Roi)
    (hb : p.x = roi.xmin ∨ p.x = roi.xmax ∨ p.y = roi.ymin ∨ p.y = roi.ymax)
    (hx1 : roi.xmin ≤ p.x) (hx2 : p.x ≤ roi.xmax)
    (hy1 : roi.ymin ≤ p.y) (hy2 : p.y ≤ roi.ymax) :
    in_roi p roi = true ∧
      ∀ (events : List Event) (thres : ℚ),
        0 ∈ select_estimate_indices [p] events roi false thres := by
  have h1 : in_roi p roi = true := by
    simp only [in_roi, Bool.and_eq_true, Bool.not_eq_true', Bool.or_eq_false_iff,
      decide_eq_false_iff_not, not_lt]
    exact ⟨⟨hx1, hx2⟩, hy1, hy2⟩
  refine ⟨h1, fun events thres => ?_⟩
  simp [select_estimate_indices, List.mem_filter, h1]

/-- C10 witness: a patch whose center `x` equals `crop_xmin` exactly is
kept. -/
theorem c10_roi_bounds_witness :
    in_roi ⟨0, 1, 0, 0, 0, 0⟩ ⟨0, 2, 0, 2⟩ = true ∧
    0 ∈ select_estimate_indices [⟨0, 1, 0, 0, 0, 0⟩] [] ⟨0, 2, 0, 2⟩ false 10 := by
  have h := c10_roi_bounds_inclusive ⟨0, 1, 0, 0, 0, 0⟩ ⟨0, 2, 0, 2⟩ (Or.inl rfl)
    (by norm_num) (by norm_num) (by norm_num) (by norm_num)
  exact ⟨h.1, h.2 [] 10⟩

/-- C1: refuted — `best_x = x0` only rebinds the Python name to the very
tensor that `optimizer.step()` mutates in place, so the vector handed to
the dense-flow reconstruction is the final iterate, not the recorded
best-loss iterate.  Concrete run (`n_iter = 1`, `x0 = 0`, step `0 ↦ 1`,
`loss(x) = x`): the loop records iterate 0 (loss 0) as best, yet the
returned vector is `1` with loss `1 > 0`; the loop as the spec describes
it would return `0`. -/
theorem c1_best_iterate_alias_bug :
    estimate_best lossId failsNever stepAdvance (0 : ℚ) 1 = 1 ∧
    (run_loop lossId failsNever stepAdvance (0 : ℚ) 1).min_loss = Fl.fin 0 ∧
    (run_loop lossId failsNever stepAdvance (0 : ℚ) 1).best_it = 0 ∧
    lossId (estimate_best lossId failsNever stepAdvance (0 : ℚ) 1) = Fl.fin 1 ∧
    Fl.ltb (Fl.fin 0) (Fl.fin 1) = true ∧
    spec_best lossId failsNever stepAdvance (0 : ℚ) 1 = 0 := by
  decide

/-- C2: refuted in its returned-value half — when backward raises at
iteration `k = 1` the loop does terminate early (the `break` path,
`broke = true`, no exception escapes), but the reconstruction receives
the current contents of `x0` (the iterate computed *at* `k`), not the
best iterate recorded strictly before `k`, again because `best_x`
aliases `x0`.  Concrete run: `x0 = 0`, step `0 ↦ 1`, `loss(0) = 5`,
`loss` NaN elsewhere, failure at iteration 1 out of 5: the recorded best
is iteration 0 (value 0, loss 5), the spec-described loop returns `0`,
the code returns `1`. -/
theorem c2_gradient_failure_alias_bug :
    (run_loop lossNanUnlessZero failsAtOne stepIncr (0 : ℚ) 5).broke = true ∧
    (run_loop lossNanUnlessZero failsAtOne stepIncr (0 : ℚ) 5).best_it = 0 ∧
    (run_loop lossNanUnlessZero failsAtOne stepIncr (0 : ℚ) 5).min_loss = Fl.fin 5 ∧
    estimate_best lossNanUnlessZero failsAtOne stepIncr (0 : ℚ) 5 = 1 ∧
    spec_best lossNanUnlessZero failsAtOne stepIncr (0 : ℚ) 5 = 0 ∧
    (1 : ℚ) ≠ 0 := by
  decide

/-- C9: if backward differentiation fails already at iteration 0, the
loop breaks before any `optimizer.step()` has run, and the vector handed
to the dense-flow reconstruction is the untouched initial parameter
vector `x0` (whether or not the iterate was recorded as best, since no
step has modified the tensor). -/
theorem c9_first_iteration_failure {V : Type} (lossF : V → Fl)
    (failsF : ℕ → V → Bool) (stepF : ℕ → V → V) (x0 : V) (n : ℕ)
    (hf : failsF 0 x0 = true) (hn : 0 < n) :
    estimate_best lossF failsF stepF x0 n = x0 := by
  obtain ⟨m, rfl⟩ : ∃ m, n = m + 1 := ⟨n - 1, (Nat.succ_pred_eq_of_pos hn).symm⟩
  have h1 : loop_body lossF failsF stepF (init_state x0) 0 =
      ⟨fun _ => x0, 0, 0, (if Fl.ltb (lossF x0) Fl.inf then lossF x0 else Fl.inf), 0, true⟩ := by
    cases hlt : Fl.ltb (lossF x0) Fl.inf <;>
      simp [loop_body, init_state, hlt, hf]
  unfold estimate_best run_loop
  rw [List.range_succ_eq_map, List.foldl_cons, h1,
    foldl_loop_body_of_broke _ _ _ _ _ rfl]

/-- C9 witness: a concrete first-iteration failure returns the initial
vector unchanged. -/
theorem c9_first_iteration_failure_witness :
    estimate_best lossAlwaysNan failsImmediately stepShift (7 : ℚ) 3 = 7 :=
  c9_first_iteration_failure lossAlwaysNan failsImmediately stepShift 7 3 rfl (by decide)

/-- C4 (amended): before interpolation, the translation field, the
intensity field, and — for the velocity and angle models — the flow
field are exactly 0 at every patch index outside the Active Patch Set.
(The poisson-model flow is excluded: it is produced by discrete
differentiation of the scattered intensity and can be nonzero at
inactive patches adjacent to active ones, see the counterexample.) -/
theorem c4_scatter_zero_amended {α : Type} [LinearOrderedField α] (cfg : Cfg)
    (sinF cosF : α → α) (params : List α) (i : ℕ)
    (hi : i ∉ cfg.estimate_indices) :
    (cfg.is_poisson_model = false →
      ∀ ch, ((get_patch_flow cfg sinF cosF params).getD zpatch) ch i = 0) ∧
    (∀ ch, ((get_patch_translation cfg params).getD zpatch) ch i = 0) ∧
    (∀ ch, ((get_patch_poisson cfg params).getD zpatch) ch i = 0) := by
  refine ⟨fun hp ch => ?_, fun ch => ?_, fun ch => ?_⟩
  · unfold get_patch_flow
    rw [hp]
    simp only [Bool.false_eq_true, if_false]
    split_ifs <;> simp [scatterTo, hi, zpatch]
  · unfold get_patch_translation
    split_ifs <;> simp [scatterTo, hi, zpatch]
  · unfold get_patch_poisson
    split_ifs <;> simp [scatterTo, hi, zpatch]

/-- C4 counterexample: under the poisson model the flow decoded by
`_get_patch_flow` is NOT zero at every inactive patch index.  On a 1x3
patch grid with only patch 1 active and intensity parameter 8, the
Sobel-differentiated flow at the inactive patch 0 is 2. -/
theorem c4_poisson_flow_counterexample :
    0 ∉ cfgPoisson13.estimate_indices ∧
    ((get_patch_flow cfgPoisson13 (id : ℚ → ℚ) id ([8] : List ℚ)).getD zpatch) 0 0 = 2 ∧
    (2 : ℚ) ≠ 0 := by
  refine ⟨by decide, ?_, by norm_num⟩
  simp only [get_patch_flow, cfgPoisson13, Option.getD_some]
  norm_num [poisson_to_flow, sobel_gx, grid_of, scatterTo, reshaped_params, List.indexOf,
    List.findIdx, List.findIdx.go]

/-- C4 witness: in the plain velocity model (dimension 2, active set
`[0]`), all three decoded fields are 0 at the inactive patch 1. -/
theorem c4_scatter_zero_witness :
    ((get_patch_flow cfgVelocity2 (id : ℚ → ℚ) id ([5, 7] : List ℚ)).getD zpatch) 0 1 = 0 ∧
    ((get_patch_translation cfgVelocity2 ([5, 7] : List ℚ)).getD zpatch) 0 1 = 0 ∧
    ((get_patch_poisson cfgVelocity2 ([5, 7] : List ℚ)).getD zpatch) 0 1 = 0 := by
  have h := c4_scatter_zero_amended cfgVelocity2 (id : ℚ → ℚ) id ([5, 7] : List ℚ) 1 (by decide)
  exact ⟨h.1 rfl 0, h.2.1 0, h.2.2 0⟩

/-- C6: under the angle model, `_get_patch_flow` recovers the velocity
of an active patch `i` as `(sin θ, cos θ)` for the patch's angle
parameter `θ`, so the reconstructed velocity has unit norm
`vx^2 + vy^2 = 1` for every input. -/
theorem c6_angle_unit_norm (cfg : Cfg) (params : List ℝ) (i : ℕ)
    (hP : cfg.is_poisson_model = false) (hA : cfg.is_angle_model = true)
    (hd : cfg.n_parameter_dim = 1 ∨ cfg.n_parameter_dim = 3)
    (hi : i ∈ cfg.estimate_indices) :
    ((get_patch_flow cfg Real.sin Real.cos params).getD zpatch) 0 i =
      Real.sin (reshaped_params cfg.n_parameter_dim params 0
        (cfg.estimate_indices.indexOf i)) ∧
    ((get_patch_flow cfg Real.sin Real.cos params).getD zpatch) 1 i =
      Real.cos (reshaped_params cfg.n_parameter_dim params 0
        (cfg.estimate_indices.indexOf i)) ∧
    (((get_patch_flow cfg Real.sin Real.cos params).getD zpatch) 0 i) ^ 2 +
      (((get_patch_flow cfg Real.sin Real.cos params).getD zpatch) 1 i) ^ 2 = 1 := by
  have hflow : get_patch_flow cfg Real.sin Real.cos params =
      some (fun c j =>
        if c = 0 then
          scatterTo cfg.estimate_indices
            (fun k => Real.sin (reshaped_params cfg.n_parameter_dim params 0 k)) j
        else if c = 1 then
          scatterTo cfg.estimate_indices
            (fun k => Real.cos (reshaped_params cfg.n_parameter_dim params 0 k)) j
        else 0) := by
    unfold get_patch_flow
    rw [hP, hA]
    simp [hd]
  rw [hflow]
  simp only [Option.getD_some, if_true, one_ne_zero, if_false, reduceIte]
  rw [scatterTo_mem _ _ _ hi, scatterTo_mem _ _ _ hi]
  exact ⟨rfl, rfl, Real.sin_sq_add_cos_sq _⟩

/-- C6 witness: concrete angle-model configuration with one active
patch and angle parameter 0. -/
theorem c6_angle_unit_norm_witness :
    ((get_patch_flow cfgAngle1 Real.sin Real.cos ([0] : List ℝ)).getD zpatch) 0 0 ^ 2 +
      ((get_patch_flow cfgAngle1 Real.sin Real.cos ([0] : List ℝ)).getD zpatch) 1 0 ^ 2 = 1 :=
  (c6_angle_unit_norm cfgAngle1 [0] 0 rfl rfl (Or.inl rfl) (by decide)).2.2

/-- C7: each decode path asserts the validity of `n_parameter_dim` for
the active model flags — the decode returns a value iff the dimension is
in the asserted set, and fails the assertion (returns nothing) on any
mismatched combination: the flow decode requires dimension in {1,3}
under the poisson or angle model and in {2,4} under the plain velocity
model; the translation decode requires 3 under poisson/angle and 4 under
velocity; the intensity decode requires the poisson model and dimension
in {1,3}. -/
theorem c7_decode_dim_assertions {α : Type} [LinearOrderedField α] (cfg : Cfg)
    (sinF cosF : α → α) (params : List α) :
    ((get_patch_flow cfg sinF cosF params).isSome = true ↔
      (if cfg.is_poisson_model || cfg.is_angle_model then
        cfg.n_parameter_dim = 1 ∨ cfg.n_parameter_dim = 3
      else cfg.n_parameter_dim = 2 ∨ cfg.n_parameter_dim = 4)) ∧
    ((get_patch_translation cfg params).isSome = true ↔
      (if cfg.is_poisson_model || cfg.is_angle_model then cfg.n_parameter_dim = 3
       else cfg.n_parameter_dim = 4)) ∧
    ((get_patch_poisson cfg params).isSome = true ↔
      (cfg.is_poisson_model = true ∧
        (cfg.n_parameter_dim = 1 ∨ cfg.n_parameter_dim = 3))) := by
  cases hp : cfg.is_poisson_model <;> cases ha : cfg.is_angle_model <;>
    refine ⟨?_, ?_, ?_⟩ <;>
      simp only [get_patch_flow, get_patch_translation, get_patch_poisson, hp, ha] <;>
        split_ifs <;> simp_all

/-- C8: `_make_prediction_torch` builds the prediction in this fixed
order: per-pixel dot product of the ROI-cropped flow with the gradient
crops (both gradient crops first forward-warped by the ROI-cropped
translation field exactly when `optimize_warp` is enabled), then
absolute value iff `no_polarity`, then elementwise weighting iff weights
are supplied, and the norm-plus-epsilon normalization last. -/
theorem c8_prediction_pipeline_order {α : Type} [LinearOrderedField α] (cfg : Cfg)
    (sinF cosF : α → α) (interp : (ℕ → ℤ → ℤ → α) → ℕ → ℤ → ℤ → α)
    (warpF : (ℤ → ℤ → α) → (ℕ → ℤ → ℤ → α) → ℤ → ℤ → α)
    (gradient_x gradient_y : ℤ → ℤ → α) (roi : RoiIdx)
    (weights : Option (ℤ → ℤ → α)) (normF : (ℤ → ℤ → α) → α) (params : List α) :
    make_prediction_torch cfg sinF cosF interp warpF gradient_x gradient_y roi
        weights normF params =
      (if cfg.optimize_warp then
        (extrapolate_dense_flow_from_estimates cfg sinF cosF interp params).bind (fun df =>
          (extrapolate_dense_translation_from_estimates cfg interp params).map (fun tr =>
            normalize_step normF (weight_step weights (polarity_step cfg.no_polarity
              (dot_step (roi_crop roi (df 0)) (roi_crop roi (df 1))
                (warpF (roi_crop roi gradient_x) (fun c => roi_crop roi (tr c)))
                (warpF (roi_crop roi gradient_y) (fun c => roi_crop roi (tr c))))))))
      else
        (extrapolate_dense_flow_from_estimates cfg sinF cosF interp params).map (fun df =>
          normalize_step normF (weight_step weights (polarity_step cfg.no_polarity
            (dot_step (roi_crop roi (df 0)) (roi_crop roi (df 1))
              (roi_crop roi gradient_x) (roi_crop roi gradient_y)))))) := by
  unfold make_prediction_torch make_prediction_prenorm normalize_step weight_step
    polarity_step dot_step
  cases hdf : extrapolate_dense_flow_from_estimates cfg sinF cosF interp params with
  | none => cases hw : cfg.optimize_warp <;> simp
  | some df =>
    cases hw : cfg.optimize_warp with
    | false => simp
    | true =>
      cases htr : extrapolate_dense_translation_from_estimates cfg interp params with
      | none => simp [htr]
      | some tr => simp [htr]

/-- C5: the increment returned by `_make_prediction_torch` is the
unnormalized (polarity-adjusted, weighted) increment divided by the
Euclidean norm of that same unnormalized result plus the constant
`1e-4`; the denominator is strictly positive, and an all-zero
unnormalized increment yields an all-zero (finite) output. -/
theorem c5_normalization_guard (cfg : Cfg)
    (interp : (ℕ → ℤ → ℤ → ℝ) → ℕ → ℤ → ℤ → ℝ)
    (warpF : (ℤ → ℤ → ℝ) → (ℕ → ℤ → ℤ → ℝ) → ℤ → ℤ → ℝ)
    (gradient_x gradient_y : ℤ → ℤ → ℝ) (roi : RoiIdx)
    (weights : Option (ℤ → ℤ → ℝ)) (params : List ℝ)
    (normE : (ℤ → ℤ → ℝ) → ℝ) (u p : ℤ → ℤ → ℝ)
    (hN : normE = fun f => Real.sqrt (∑ a ∈ Finset.range (roi.xmax - roi.xmin),
      ∑ b ∈ Finset.range (roi.ymax - roi.ymin), f (a : ℤ) (b : ℤ) ^ 2))
    (hu : u = (make_prediction_prenorm cfg Real.sin Real.cos interp warpF gradient_x
      gradient_y roi weights params).getD zfield)
    (hp : p = (make_prediction_torch cfg Real.sin Real.cos interp warpF gradient_x
      gradient_y roi weights normE params).getD zfield) :
    (∀ a b, p a b = u a b / (normE u + 1 / 10000)) ∧
    (0 < normE u + 1 / 10000) ∧
    ((∀ a b, u a b = 0) → ∀ a b, p a b = 0) := by
  have h1 : ∀ a b, p a b = u a b / (normE u + 1 / 10000) := by
    cases hq : make_prediction_prenorm cfg Real.sin Real.cos interp warpF gradient_x
        gradient_y roi weights params with
    | none =>
      subst hu hp
      simp [make_prediction_torch, hq, zfield, zero_div]
    | some u0 =>
      subst hu hp
      simp [make_prediction_torch, hq]
  have h2 : 0 < normE u + 1 / 10000 := by
    subst hN
    simp only []
    positivity
  exact ⟨h1, h2, fun h0 a b => by rw [h1 a b, h0 a b, zero_div]⟩

/-- C5 witness: a concrete configuration (zero gradients, zero-valued
interpolation) whose unnormalized increment is identically zero still
yields a zero, well-defined prediction. -/
theorem c5_normalization_witness :
    ((make_prediction_torch cfgVel5 Real.sin Real.cos (fun _ _ _ _ => 0) (fun g _ => g)
        (fun _ _ => 0) (fun _ _ => 0) ⟨0, 1, 0, 1⟩ none
        (fun f => Real.sqrt (∑ a ∈ Finset.range 1, ∑ b ∈ Finset.range 1,
          f (a : ℤ) (b : ℤ) ^ 2))
        []).getD zfield) 0 0 = 0 := by
  have h := c5_normalization_guard cfgVel5 (fun _ _ _ _ => 0) (fun g _ => g)
    (fun _ _ => 0) (fun _ _ => 0) ⟨0, 1, 0, 1⟩ none [] _ _ _ rfl rfl rfl
  refine h.2.2 (fun a b => ?_) 0 0
  simp [make_prediction_prenorm, extrapolate_dense_flow_from_estimates, get_patch_flow,
    cfgVel5, roi_crop, zfield]
